import Mathlib

/-!
# Verification of `mattbot_database` (`src/database_utils/__init__.py`)

A shallow embedding of the SQLite-backed robot data-access layer.

Modelling conventions, matched against the Python/SQLite source:

* The persistent store is a `Store`: the two tables' existence flags plus
  their row lists (in rowid order).  SQLite REAL columns are `Rat`,
  INTEGER columns are `Int`; a nullable column is an `Option`.
* `sqlite3` engine failures are an exogenous `Engine` oracle:
  `openFails` models `sqlite3.connect` raising (bad path / permissions),
  `execFails` models a statement (`execute`/`commit`/fetch) raising
  `sqlite3.Error`.  A statement against a missing table also raises
  (`no such table`), which the code catches the same way, so the caught
  branch fires when `execFails` is set or the table is absent.
* A Python function that can raise is embedded as `Except PyExc _`:
  `.error` means an exception escaped to the caller, `.ok` a normal return.
  Crucially, each `RobotDatabase` method calls `self.connect()` *before*
  its `try:` block, so a connect failure is an `.error`; a `sqlite3.Error`
  inside the `try` is caught and becomes the documented sentinel value.
* `INTEGER PRIMARY KEY` rowid assignment: max existing id (at least 0)
  plus one; the layer never deletes rows so this matches SQLite.
* `ORDER BY timestamp DESC` is insertion sort by the `goalAfter` /
  `objAfter` relations.  `LIMIT ?` follows SQLite: a negative limit means
  *no* limit; a nonnegative limit takes that many rows (`applyLimit`).
* `RobotDatabase` defines no `__enter__`/`__exit__`, so every
  `with RobotDatabase(db_path) as db:` in the free helper functions raises
  (`TypeError`/`AttributeError`) before the body runs; each helper wraps
  the `with` in `try/except Exception`, so the helper returns its sentinel.
  The constant `robotDatabase_has_enter` records this fact of the class.
-/

/-- A row of the `goals` table (`CREATE TABLE` at lines 59-68 of the source):
`goal_id INTEGER PRIMARY KEY, robot_id INTEGER NOT NULL, x REAL, y REAL,
theta REAL, timestamp INTEGER`. -/
structure GoalRow where
  goal_id : Int
  robot_id : Int
  x : Rat
  y : Rat
  theta : Rat
  timestamp : Int
deriving Repr, DecidableEq

/-- A row of the `objects` table (`CREATE TABLE` at lines 83-92 of the source):
`object_id INTEGER PRIMARY KEY, class_name TEXT NOT NULL, x REAL, y REAL,
robot_id INTEGER` (nullable), `timestamp INTEGER` (nullable in practice:
an explicit NULL binding bypasses the DEFAULT).  `robot_id` and `timestamp`
are `Option Rat` because the dynamically-typed call path
`add_detected_object -> add_object` can bind a REAL or NULL to either. -/
structure ObjectRow where
  object_id : Int
  class_name : String
  x : Rat
  y : Rat
  robot_id : Option Rat
  timestamp : Option Rat
deriving Repr, DecidableEq

/-- The persistent state of the single-file store. -/
structure Store where
  goalsTable : Bool
  objectsTable : Bool
  goals : List GoalRow
  objects : List ObjectRow
deriving Repr, DecidableEq

/-- Exogenous engine-failure oracle for one operation. -/
structure Engine where
  openFails : Bool
  execFails : Bool
deriving Repr, DecidableEq

/-- A Python exception escaping a function. -/
inductive PyExc where
  | sqliteError
  | typeError
deriving Repr, DecidableEq

instance {ε α : Type} [DecidableEq ε] [DecidableEq α] : DecidableEq (Except ε α) :=
  fun a b =>
    match a, b with
    | .ok x, .ok y => decidable_of_iff (x = y) (by simp)
    | .error x, .error y => decidable_of_iff (x = y) (by simp)
    | .ok _, .error _ => isFalse (by simp)
    | .error _, .ok _ => isFalse (by simp)

/-- The engine behaviour with no failures. -/
def okEngine : Engine := ⟨false, false⟩

/-- A freshly initialized store: both tables exist, no rows. -/
def initStore : Store := ⟨true, true, [], []⟩

/-- SQLite rowid assignment for an `INTEGER PRIMARY KEY` column with no
deletions: one more than the largest existing id (at least 0). -/
def nextId (ids : List Int) : Int := ids.foldr max 0 + 1

/-- SQLite `LIMIT ?`: a negative limit imposes no bound, a nonnegative limit
takes at most that many rows. -/
def applyLimit {α : Type} (lim : Int) (xs : List α) : List α :=
  if lim < 0 then xs else xs.take lim.toNat

/-- SQLite ordering on a nullable numeric column: NULL sorts below every
number (so NULLs come last under `DESC`). -/
def optRatLe : Option Rat → Option Rat → Prop
  | none, _ => True
  | some _, none => False
  | some a, some b => a ≤ b

instance : DecidableRel optRatLe := fun a b =>
  match a, b with
  | none, _ => isTrue trivial
  | some _, none => isFalse id
  | some a, some b => inferInstanceAs (Decidable (a ≤ b))

/-- `ORDER BY timestamp DESC` on goals: `a` comes no later than `b` in the
output when `b.timestamp ≤ a.timestamp`. -/
def goalAfter (a b : GoalRow) : Prop := b.timestamp ≤ a.timestamp

instance : DecidableRel goalAfter := fun a b =>
  inferInstanceAs (Decidable (b.timestamp ≤ a.timestamp))

instance : IsTotal GoalRow goalAfter :=
  ⟨fun a b => (Int.le_total b.timestamp a.timestamp).imp id id⟩

instance : IsTrans GoalRow goalAfter :=
  ⟨fun _ _ _ h1 h2 => le_trans h2 h1⟩

/-- `ORDER BY timestamp DESC` on objects (NULL timestamps last). -/
def objAfter (a b : ObjectRow) : Prop := optRatLe b.timestamp a.timestamp

instance : DecidableRel objAfter := fun a b =>
  inferInstanceAs (Decidable (optRatLe b.timestamp a.timestamp))

instance : IsTotal ObjectRow objAfter := by
  constructor
  intro a b
  show optRatLe b.timestamp a.timestamp ∨ optRatLe a.timestamp b.timestamp
  rcases a.timestamp with _ | x <;> rcases b.timestamp with _ | y
  · exact Or.inl trivial
  · exact Or.inr trivial
  · exact Or.inl trivial
  · exact (le_total y x).imp id id

theorem optRatLe_trans {a b c : Option Rat} (h1 : optRatLe a b) (h2 : optRatLe b c) :
    optRatLe a c := by
  rcases a with _ | x <;> rcases b with _ | y <;> rcases c with _ | z <;>
    first
      | exact trivial
      | exact h1.elim
      | exact h2.elim
      | exact le_trans (α := Rat) h1 h2

instance : IsTrans ObjectRow objAfter :=
  ⟨fun _ _ _ h1 h2 => optRatLe_trans h2 h1⟩

/-- The result rows of a goals query ordered newest-first. -/
def sortGoalsDesc (gs : List GoalRow) : List GoalRow :=
  List.insertionSort goalAfter gs

/-- The result rows of an objects query ordered newest-first. -/
def sortObjectsDesc (os : List ObjectRow) : List ObjectRow :=
  List.insertionSort objAfter os

namespace RobotDatabase

/-- `create_goals_table` (lines 53-75): `self.connect()` runs before the
`try`, so an open failure raises; a `sqlite3.Error` from the
`CREATE TABLE IF NOT EXISTS` statement is caught, logged, and `False` is
returned; otherwise the table exists afterwards (existing rows untouched)
and `True` is returned. -/
def create_goals_table (e : Engine) (s : Store) : Except PyExc (Bool × Store) :=
  if e.openFails then .error .sqliteError
  else if e.execFails then .ok (false, s)
  else .ok (true, { s with goalsTable := true })

/-- `create_objects_table` (lines 77-99): same shape as
`create_goals_table`, for the `objects` table. -/
def create_objects_table (e : Engine) (s : Store) : Except PyExc (Bool × Store) :=
  if e.openFails then .error .sqliteError
  else if e.execFails then .ok (false, s)
  else .ok (true, { s with objectsTable := true })

/-- `add_goal` (lines 103-128): connect before the `try` (open failure
raises); a failing INSERT (engine error or missing table) is caught and
returns `None` with the store unchanged; on success the row is committed
with a fresh `goal_id` — and the function still returns `None`, because the
`try` body has no `return` statement (it falls off the end). -/
def add_goal (e : Engine) (s : Store) (robot_id : Int) (x y theta : Rat)
    (timestamp : Int) : Except PyExc (Option Int × Store) :=
  if e.openFails then .error .sqliteError
  else if e.execFails || !s.goalsTable then .ok (none, s)
  else
    let gid := nextId (s.goals.map GoalRow.goal_id)
    .ok (none, { s with goals := s.goals ++ [⟨gid, robot_id, x, y, theta, timestamp⟩] })

/-- `get_latest_goal` (lines 130-163): connect before the `try` (open
failure raises); a failing SELECT collapses to `None`; otherwise the single
row with greatest `timestamp` for `robot_id` (`ORDER BY timestamp DESC
LIMIT 1`, `fetchone`), or `None` when the robot has no goals. -/
def get_latest_goal (e : Engine) (s : Store) (robot_id : Int) :
    Except PyExc (Option GoalRow) :=
  if e.openFails then .error .sqliteError
  else if e.execFails || !s.goalsTable then .ok none
  else .ok (sortGoalsDesc (s.goals.filter fun g => decide (g.robot_id = robot_id))).head?

/-- `get_goal_history` (lines 165-200): connect before the `try` (open
failure raises); a failing SELECT collapses to `[]`; otherwise the rows for
`robot_id`, `ORDER BY timestamp DESC LIMIT ?` with the caller's limit bound
directly into the SQL (so SQLite's negative-limit-means-unlimited rule
applies). -/
def get_goal_history (e : Engine) (s : Store) (robot_id : Int) (limit : Int) :
    Except PyExc (List GoalRow) :=
  if e.openFails then .error .sqliteError
  else if e.execFails || !s.goalsTable then .ok []
  else .ok (applyLimit limit
    (sortGoalsDesc (s.goals.filter fun g => decide (g.robot_id = robot_id))))

/-- `add_object` (lines 204-229): same shape as `add_goal` — the committed
row gets a fresh `object_id`, but the `try` body has no `return`, so the
method returns `None` on success as well as on a caught engine error. -/
def add_object (e : Engine) (s : Store) (class_name : String) (x y : Rat)
    (robot_id : Option Rat) (timestamp : Option Rat) :
    Except PyExc (Option Int × Store) :=
  if e.openFails then .error .sqliteError
  else if e.execFails || !s.objectsTable then .ok (none, s)
  else
    let oid := nextId (s.objects.map ObjectRow.object_id)
    .ok (none, { s with objects := s.objects ++ [⟨oid, class_name, x, y, robot_id, timestamp⟩] })

/-- The `class_name` condition of `get_recent_objects` (lines 249-251):
guarded by `if class_name:` — Python truthiness — so `None` **and** the
empty string add no `class_name = ?` condition to the WHERE clause. -/
def classFilter (class_name : Option String) (os : List ObjectRow) : List ObjectRow :=
  match class_name with
  | some c => if c = "" then os else os.filter fun o => decide (o.class_name = c)
  | none => os

/-- The `robot_id` condition of `get_recent_objects` (lines 253-255):
guarded by `if robot_id is not None:`, so every non-`None` value — `0`
included — adds the exact-match `robot_id = ?` condition. -/
def robotFilter (robot_id : Option Rat) (os : List ObjectRow) : List ObjectRow :=
  match robot_id with
  | some r => os.filter fun o => decide (o.robot_id = some r)
  | none => os

/-- `get_recent_objects` (lines 231-281): connect before the `try` (open
failure raises); a failing SELECT collapses to `[]`.  The WHERE clause
conjoins the `classFilter` and `robotFilter` conditions, then
`ORDER BY timestamp DESC LIMIT ?` with the caller's limit. -/
def get_recent_objects (e : Engine) (s : Store) (limit : Int)
    (class_name : Option String) (robot_id : Option Rat) :
    Except PyExc (List ObjectRow) :=
  if e.openFails then .error .sqliteError
  else if e.execFails || !s.objectsTable then .ok []
  else .ok (applyLimit limit
    (sortObjectsDesc (robotFilter robot_id (classFilter class_name s.objects))))

end RobotDatabase

/-- The `RobotDatabase` class defines neither `__enter__` nor `__exit__`
(its only methods are `__init__`, `connect`, `close`, the two table
creators, and the four repository methods), so it does not support the
context-manager protocol used by every free helper function. -/
def robotDatabase_has_enter : Bool := false

/-- `initialize_database` (lines 285-302): `with RobotDatabase(db_path) as
db:` raises immediately (no `__enter__`), the surrounding `except
Exception` catches it and returns `False); were the class a context
manager, the body would run both table creators and return `True`. -/
def init_database (e : Engine) (s : Store) : Bool × Store :=
  if robotDatabase_has_enter then
    match RobotDatabase.create_goals_table e s with
    | .error _ => (false, s)
    | .ok (_, s1) =>
      match RobotDatabase.create_objects_table e s1 with
      | .error _ => (false, s1)
      | .ok (_, s2) => (true, s2)
  else (false, s)

/-- The body of the `with` statement in `add_detected_object` (line 379):
`db.add_object(class_name, x, y, theta, robot_id)` — the five positional
arguments land on `add_object(self, class_name, x, y, robot_id, timestamp)`,
so `theta` is bound to the `robot_id` parameter (a REAL stored in the
`robot_id` column) and `robot_id` to the `timestamp` parameter. -/
def add_detected_object_body (e : Engine) (s : Store) (class_name : String)
    (x y theta : Rat) (robot_id : Option Rat) :
    Except PyExc (Option Int × Store) :=
  RobotDatabase.add_object e s class_name x y (some theta) robot_id

/-- `add_detected_object` (lines 362-382): the `with` statement raises
before the body runs (no `__enter__`), `except Exception` catches it and
returns `None`; the store is never touched. -/
def add_detected_object (e : Engine) (s : Store) (class_name : String)
    (x y theta : Rat) (robot_id : Option Rat) :
    Except PyExc (Option Int × Store) :=
  if robotDatabase_has_enter then
    add_detected_object_body e s class_name x y theta robot_id
  else .ok (none, s)

/-! ## Helper lemmas about the query combinators -/

theorem mem_applyLimit {α : Type} {lim : Int} {xs : List α} {x : α}
    (h : x ∈ applyLimit lim xs) : x ∈ xs := by
  unfold applyLimit at h
  split at h
  · exact h
  · exact List.take_subset _ _ h

theorem length_applyLimit_le {α : Type} {lim : Int} (h : 0 ≤ lim) (xs : List α) :
    ((applyLimit lim xs).length : Int) ≤ lim := by
  unfold applyLimit
  rw [if_neg (not_lt.mpr h)]
  calc ((xs.take lim.toNat).length : Int) ≤ (lim.toNat : Int) := by
        exact_mod_cast List.length_take_le _ _
    _ = lim := Int.toNat_of_nonneg h

theorem pairwise_applyLimit {α : Type} {R : α → α → Prop} {lim : Int} {xs : List α}
    (h : xs.Pairwise R) : (applyLimit lim xs).Pairwise R := by
  unfold applyLimit
  split
  · exact h
  · exact h.sublist (List.take_sublist _ _)

theorem applyLimit_zero {α : Type} (xs : List α) : applyLimit 0 xs = [] := by
  unfold applyLimit
  rw [if_neg (by decide)]
  rfl

theorem applyLimit_neg {α : Type} {lim : Int} (h : lim < 0) (xs : List α) :
    applyLimit lim xs = xs := if_pos h

theorem mem_sortGoalsDesc {gs : List GoalRow} {g : GoalRow}
    (h : g ∈ sortGoalsDesc gs) : g ∈ gs :=
  (List.mem_insertionSort goalAfter).mp h

theorem pairwise_sortGoalsDesc (gs : List GoalRow) :
    (sortGoalsDesc gs).Pairwise goalAfter :=
  List.sorted_insertionSort goalAfter gs

theorem mem_sortObjectsDesc {os : List ObjectRow} {o : ObjectRow}
    (h : o ∈ sortObjectsDesc os) : o ∈ os :=
  (List.mem_insertionSort objAfter).mp h

theorem pairwise_sortObjectsDesc (os : List ObjectRow) :
    (sortObjectsDesc os).Pairwise objAfter :=
  List.sorted_insertionSort objAfter os

/-! ## Case-analysis lemmas for the repository operations -/

/-- A member of the filtered rows with a present, non-empty `class_name`
condition has exactly that class. -/
theorem classFilter_mem {c : String} (hne : c ≠ "") {os : List ObjectRow}
    {o : ObjectRow} (h : o ∈ RobotDatabase.classFilter (some c) os) : o.class_name = c := by
  simp only [RobotDatabase.classFilter, if_neg hne] at h
  have := (List.mem_filter.mp h).2
  simpa using this

/-- A member of the filtered rows with a present `robot_id` condition has
exactly that robot id. -/
theorem robotFilter_mem {r : Rat} {os : List ObjectRow} {o : ObjectRow}
    (h : o ∈ RobotDatabase.robotFilter (some r) os) : o.robot_id = some r := by
  simp only [RobotDatabase.robotFilter] at h
  have := (List.mem_filter.mp h).2
  simpa using this

theorem mem_of_robotFilter {rid : Option Rat} {os : List ObjectRow}
    {o : ObjectRow} (h : o ∈ RobotDatabase.robotFilter rid os) : o ∈ os := by
  rcases rid with _ | r <;> simp only [RobotDatabase.robotFilter] at h
  · exact h
  · exact List.mem_of_mem_filter h

/-- Any successful return of `get_goal_history` satisfies the row-ownership,
ordering and (for nonnegative limits) length bounds. -/
theorem get_goal_history_ok_props {e : Engine} {s : Store} {rid lim : Int}
    {gs : List GoalRow}
    (h : RobotDatabase.get_goal_history e s rid lim = .ok gs) :
    (∀ g ∈ gs, g.robot_id = rid) ∧ gs.Pairwise goalAfter ∧
      (0 ≤ lim → (gs.length : Int) ≤ lim) := by
  unfold RobotDatabase.get_goal_history at h
  by_cases ho : e.openFails = true
  · rw [if_pos ho] at h
    exact absurd h (by simp)
  rw [if_neg ho] at h
  by_cases hx : (e.execFails || !s.goalsTable) = true
  · rw [if_pos hx] at h
    obtain rfl : ([] : List GoalRow) = gs := by simpa using h
    exact ⟨by simp, by simp, fun hle => by simpa using hle⟩
  rw [if_neg hx] at h
  obtain rfl : applyLimit lim (sortGoalsDesc
      (s.goals.filter fun g => decide (g.robot_id = rid))) = gs := by simpa using h
  refine ⟨?_, pairwise_applyLimit (pairwise_sortGoalsDesc _),
    fun hle => length_applyLimit_le hle _⟩
  intro g hg
  have hmem := mem_sortGoalsDesc (mem_applyLimit hg)
  have := (List.mem_filter.mp hmem).2
  simpa using this

/-- Any successful return of `get_recent_objects` satisfies the filter,
ordering and (for nonnegative limits) length bounds. -/
theorem get_recent_objects_ok_props {e : Engine} {s : Store} {lim : Int}
    {cn : Option String} {rid : Option Rat} {os : List ObjectRow}
    (h : RobotDatabase.get_recent_objects e s lim cn rid = .ok os) :
    (∀ c, cn = some c → c ≠ "" → ∀ o ∈ os, o.class_name = c) ∧
      (∀ r, rid = some r → ∀ o ∈ os, o.robot_id = some r) ∧
      os.Pairwise objAfter ∧ (0 ≤ lim → (os.length : Int) ≤ lim) := by
  unfold RobotDatabase.get_recent_objects at h
  by_cases ho : e.openFails = true
  · rw [if_pos ho] at h
    exact absurd h (by simp)
  rw [if_neg ho] at h
  by_cases hx : (e.execFails || !s.objectsTable) = true
  · rw [if_pos hx] at h
    obtain rfl : ([] : List ObjectRow) = os := by simpa using h
    exact ⟨by simp, by simp, by simp, fun hle => by simpa using hle⟩
  rw [if_neg hx] at h
  obtain rfl : applyLimit lim (sortObjectsDesc
      (RobotDatabase.robotFilter rid (RobotDatabase.classFilter cn s.objects))) = os := by simpa using h
  refine ⟨?_, ?_, pairwise_applyLimit (pairwise_sortObjectsDesc _),
    fun hle => length_applyLimit_le hle _⟩
  · intro c hc hne o hmem
    subst hc
    exact classFilter_mem hne
      (mem_of_robotFilter (mem_sortObjectsDesc (mem_applyLimit hmem)))
  · intro r hr o hmem
    subst hr
    exact robotFilter_mem (mem_sortObjectsDesc (mem_applyLimit hmem))

/-! ## Claim theorems -/

/-- C1 counterexample: on a store whose file cannot be opened,
`self.connect()` runs before the `try:` block, so `get_latest_goal`
propagates the `sqlite3` exception to the caller instead of returning the
sentinel — the claim "never raises ... including a store that cannot be
opened" is false. -/
theorem get_latest_goal_raises_when_open_fails :
    RobotDatabase.get_latest_goal ⟨true, false⟩ initStore 1 = .error .sqliteError := rfl

/-- C1 (amended): provided the store can be opened, none of the three query
operations raises: each returns normally for every store state, and an
engine error during statement execution collapses to the sentinel (`none`
for `get_latest_goal`, `[]` for the list queries). -/
theorem query_ops_never_raise_when_store_opens (e : Engine) (s : Store)
    (rid lim : Int) (cn : Option String) (orid : Option Rat)
    (hopen : e.openFails = false) :
    (∃ g, RobotDatabase.get_latest_goal e s rid = .ok g) ∧
    (∃ gs, RobotDatabase.get_goal_history e s rid lim = .ok gs) ∧
    (∃ os, RobotDatabase.get_recent_objects e s lim cn orid = .ok os) ∧
    (e.execFails = true →
      RobotDatabase.get_latest_goal e s rid = .ok none ∧
      RobotDatabase.get_goal_history e s rid lim = .ok [] ∧
      RobotDatabase.get_recent_objects e s lim cn orid = .ok []) := by
  unfold RobotDatabase.get_latest_goal RobotDatabase.get_goal_history
    RobotDatabase.get_recent_objects
  rw [hopen]
  simp only [Bool.false_eq_true, if_false]
  refine ⟨?_, ?_, ?_, ?_⟩
  · split
    · exact ⟨_, rfl⟩
    · exact ⟨_, rfl⟩
  · split
    · exact ⟨_, rfl⟩
    · exact ⟨_, rfl⟩
  · split
    · exact ⟨_, rfl⟩
    · exact ⟨_, rfl⟩
  · intro hexec
    simp [hexec]

/-- C1 witness: the amended theorem applied to a concrete healthy engine
and the fresh store. -/
theorem query_ops_never_raise_witness :
    (∃ g, RobotDatabase.get_latest_goal okEngine initStore 1 = .ok g) ∧
    (∃ gs, RobotDatabase.get_goal_history okEngine initStore 1 10 = .ok gs) ∧
    (∃ os, RobotDatabase.get_recent_objects okEngine initStore 10 none none = .ok os) ∧
    (okEngine.execFails = true →
      RobotDatabase.get_latest_goal okEngine initStore 1 = .ok none ∧
      RobotDatabase.get_goal_history okEngine initStore 1 10 = .ok [] ∧
      RobotDatabase.get_recent_objects okEngine initStore 10 none none = .ok []) :=
  query_ops_never_raise_when_store_opens okEngine initStore 1 10 none none rfl

/-- C2: on a successful insert the methods do **not** return the newly
assigned identity.  Evaluating the code at the failing inputs: both inserts
succeed (the committed row, with its fresh id, is visible in the returned
store) yet `add_goal` and `add_object` return `None`, because their `try`
bodies have no `return` statement — contradicting their own docstrings. -/
theorem add_ops_return_none_on_success :
    (RobotDatabase.add_goal okEngine initStore 1 (5/2) (-3) (157/100) 1000
      = .ok (none, { initStore with goals := [⟨1, 1, 5/2, -3, 157/100, 1000⟩] })) ∧
    (RobotDatabase.add_object okEngine initStore "cup" 0 0 (some 1) (some 1000)
      = .ok (none, { initStore with objects := [⟨1, "cup", 0, 0, some 1, some 1000⟩] })) :=
  ⟨rfl, rfl⟩

/-- C3: `initialize_database` never invokes either schema-ensure operation
and never returns `True`: the `with RobotDatabase(db_path) as db:` statement
raises at once (the class defines no `__enter__`), the `except Exception`
catches it, and `False` comes back with the store untouched — for every
engine behaviour and every store state, writable paths included. -/
theorem init_database_always_false (e : Engine) (s : Store) :
    init_database e s = (false, s) := rfl

/-- C4 counterexample: the insert underlying `add_detected_object` (the
`db.add_object(class_name, x, y, theta, robot_id)` delegation) does *not*
ignore `theta`: it binds `theta` to `add_object`'s `robot_id` parameter, so
the stored row's `robot_id` column equals `theta` (and its `timestamp`
column equals the caller's `robot_id`), and the result changes when only
`theta` changes. -/
theorem add_detected_object_body_depends_on_theta :
    (add_detected_object_body okEngine initStore "cup" 0 0 2 (some 7)
      = .ok (none, { initStore with objects := [⟨1, "cup", 0, 0, some 2, some 7⟩] })) ∧
    add_detected_object_body okEngine initStore "cup" 0 0 2 (some 7)
      ≠ add_detected_object_body okEngine initStore "cup" 0 0 3 (some 7) :=
  ⟨rfl, by decide⟩

/-- C4 (amended): `add_detected_object`'s `theta` is misrouted, not dropped:
the with-body passes it positionally into `add_object`'s `robot_id`
parameter and passes `robot_id` into the `timestamp` parameter, so a row
inserted through this path stores `robot_id = theta` and
`timestamp = robot_id`; in the shipped code the `with` statement raises
before the body runs (no `__enter__`), so the free function always returns
`None` and leaves the store unchanged. -/
theorem add_detected_object_misroutes_theta (e : Engine) (s : Store)
    (cn : String) (x y theta : Rat) (rid : Option Rat)
    (hopen : e.openFails = false) (hexec : e.execFails = false)
    (htab : s.objectsTable = true) :
    (add_detected_object_body e s cn x y theta rid
      = .ok (none, { s with objects := s.objects ++
          [⟨nextId (s.objects.map ObjectRow.object_id), cn, x, y, some theta, rid⟩] })) ∧
    add_detected_object e s cn x y theta rid = .ok (none, s) := by
  constructor
  · simp [add_detected_object_body, RobotDatabase.add_object, hopen, hexec, htab]
  · rfl

/-- C4 witness: the amended theorem applied to a healthy engine, the fresh
store, and concrete arguments. -/
theorem add_detected_object_misroutes_theta_witness :
    (add_detected_object_body okEngine initStore "cup" 0 0 (3/2) (some 7)
      = .ok (none, { initStore with objects := [⟨nextId (initStore.objects.map
          ObjectRow.object_id), "cup", 0, 0, some (3/2), some 7⟩] })) ∧
    add_detected_object okEngine initStore "cup" 0 0 (3/2) (some 7)
      = .ok (none, initStore) := by
  have h := add_detected_object_misroutes_theta okEngine initStore
    "cup" 0 0 (3/2) (some 7) rfl rfl rfl
  exact ⟨h.1, h.2⟩

/-- The store after inserting goals for robot 7 with timestamps
100, 300, 200 (in that insertion order) into a fresh store. -/
def hist7Store : Store :=
  { initStore with goals :=
      [⟨1, 7, 0, 0, 0, 100⟩, ⟨2, 7, 0, 0, 0, 300⟩, ⟨3, 7, 0, 0, 0, 200⟩] }

/-- The rows of `hist7Store` ordered newest-first. -/
def hist7Rows : List GoalRow :=
  [⟨2, 7, 0, 0, 0, 300⟩, ⟨3, 7, 0, 0, 0, 200⟩, ⟨1, 7, 0, 0, 0, 100⟩]

/-- A store holding a single goal for robot 1 with timestamp 5. -/
def oneGoalStore : Store := { initStore with goals := [⟨1, 1, 0, 0, 0, 5⟩] }

/-- C5: on the freshly initialized store,
`add_goal(1, 2.5, -3.0, 1.57, 1000)` commits exactly that row under the
freshly assigned `goal_id` 1 (no prior row carries id 1), and
`get_latest_goal(1)` on the resulting store returns it with every field
equal to the inserted values; and for any robot with no stored goals,
`get_latest_goal` returns `None` rather than an error. -/
theorem goal_roundtrip_and_absence :
    (RobotDatabase.add_goal okEngine initStore 1 (5/2) (-3) (157/100) 1000
      = .ok (none, { initStore with goals := [⟨1, 1, 5/2, -3, 157/100, 1000⟩] })) ∧
    (RobotDatabase.get_latest_goal okEngine
        { initStore with goals := [⟨1, 1, 5/2, -3, 157/100, 1000⟩] } 1
      = .ok (some ⟨1, 1, 5/2, -3, 157/100, 1000⟩)) ∧
    (∀ g ∈ initStore.goals, g.goal_id ≠ 1) ∧
    (∀ (e : Engine) (s : Store) (rid : Int), e.openFails = false →
      (∀ g ∈ s.goals, g.robot_id ≠ rid) →
      RobotDatabase.get_latest_goal e s rid = .ok none) := by
  refine ⟨rfl, rfl, by simp [initStore], ?_⟩
  intro e s rid hopen habs
  have hfil : s.goals.filter (fun g => decide (g.robot_id = rid)) = [] :=
    List.filter_eq_nil_iff.mpr (fun g hg => by simpa using habs g hg)
  unfold RobotDatabase.get_latest_goal
  rw [hopen]
  simp only [Bool.false_eq_true, if_false]
  split
  · rfl
  · rw [hfil]
    rfl

/-- C5 witness: absence at the concrete robot id 999 on the fresh store. -/
theorem goal_roundtrip_and_absence_witness :
    RobotDatabase.get_latest_goal okEngine initStore 999 = .ok none :=
  goal_roundtrip_and_absence.2.2.2 okEngine initStore 999 rfl (by simp [initStore])

/-- C6: every successful `get_goal_history` call with a positive limit
returns at most `limit` rows, all owned by the queried robot, ordered by
timestamp descending; and on the concrete store with robot-7 goals inserted
with timestamps 100, 300, 200, the history comes back ordered
300, 200, 100. -/
theorem goal_history_limit_owner_order :
    (∀ (e : Engine) (s : Store) (rid lim : Int), 0 < lim →
      ∀ gs, RobotDatabase.get_goal_history e s rid lim = .ok gs →
        (gs.length : Int) ≤ lim ∧ (∀ g ∈ gs, g.robot_id = rid) ∧
          gs.Pairwise goalAfter) ∧
    RobotDatabase.get_goal_history okEngine hist7Store 7 10 = .ok hist7Rows := by
  refine ⟨?_, rfl⟩
  intro e s rid lim hlim gs hgs
  obtain ⟨hmem, hpair, hlen⟩ := get_goal_history_ok_props hgs
  exact ⟨hlen (le_of_lt hlim), hmem, hpair⟩

/-- C6 witness: the general part applied to the concrete robot-7 store. -/
theorem goal_history_limit_owner_order_witness :
    (hist7Rows.length : Int) ≤ 10 ∧ (∀ g ∈ hist7Rows, g.robot_id = 7) ∧
      hist7Rows.Pairwise goalAfter :=
  goal_history_limit_owner_order.1 okEngine hist7Store 7 10 (by decide) hist7Rows rfl

/-- C7 counterexample: on a store with one goal for robot 1, a limit of -1
(which is ≤ 0) does not yield the empty sequence: SQLite treats a negative
`LIMIT` as "no limit", so the stored row comes back. -/
theorem goal_history_negative_limit_returns_rows :
    RobotDatabase.get_goal_history okEngine oneGoalStore 1 (-1)
      = .ok [⟨1, 1, 0, 0, 0, 5⟩] ∧
    (.ok [⟨1, 1, 0, 0, 0, 5⟩] : Except PyExc (List GoalRow)) ≠ .ok [] :=
  ⟨rfl, by decide⟩

/-- C7 (amended): for every limit ≤ 0, `get_goal_history` does not error
(provided the store opens): a limit of exactly 0 yields the empty sequence,
while a negative limit is passed straight into SQLite's `LIMIT ?`, which
treats it as unlimited and returns all of the robot's rows newest-first. -/
theorem goal_history_nonpositive_limit (e : Engine) (s : Store) (rid lim : Int)
    (hopen : e.openFails = false) (hlim : lim ≤ 0) :
    (∃ gs, RobotDatabase.get_goal_history e s rid lim = .ok gs) ∧
    (lim = 0 → RobotDatabase.get_goal_history e s rid lim = .ok []) ∧
    (lim < 0 → e.execFails = false → s.goalsTable = true →
      RobotDatabase.get_goal_history e s rid lim
        = .ok (sortGoalsDesc (s.goals.filter fun g => decide (g.robot_id = rid)))) := by
  unfold RobotDatabase.get_goal_history
  rw [hopen]
  simp only [Bool.false_eq_true, if_false]
  refine ⟨?_, ?_, ?_⟩
  · split
    · exact ⟨_, rfl⟩
    · exact ⟨_, rfl⟩
  · intro h0
    subst h0
    split
    · rfl
    · rw [applyLimit_zero]
  · intro hneg hexec htab
    rw [if_neg (by simp [hexec, htab]), applyLimit_neg hneg]

/-- C7 witness: the amended theorem applied to the one-goal store at the
concrete limit -1. -/
theorem goal_history_nonpositive_limit_witness :
    (∃ gs, RobotDatabase.get_goal_history okEngine oneGoalStore 1 (-1) = .ok gs) ∧
    ((-1 : Int) = 0 → RobotDatabase.get_goal_history okEngine oneGoalStore 1 (-1) = .ok []) ∧
    ((-1 : Int) < 0 → okEngine.execFails = false → oneGoalStore.goalsTable = true →
      RobotDatabase.get_goal_history okEngine oneGoalStore 1 (-1)
        = .ok (sortGoalsDesc (oneGoalStore.goals.filter fun g => decide (g.robot_id = 1)))) :=
  goal_history_nonpositive_limit okEngine oneGoalStore 1 (-1) rfl (by decide)

/-- Objects of class "cup" detected by robots 1 and 2 plus a "ball" from
robot 1, newest last. -/
def cupStore : Store :=
  { initStore with objects :=
      [⟨1, "cup", 0, 0, some 1, some 10⟩, ⟨2, "cup", 0, 0, some 2, some 20⟩,
       ⟨3, "ball", 0, 0, some 1, some 30⟩] }

/-- Five objects with increasing timestamps. -/
def fiveStore : Store :=
  { initStore with objects :=
      [⟨1, "a", 0, 0, some 1, some 1⟩, ⟨2, "b", 0, 0, some 1, some 2⟩,
       ⟨3, "c", 0, 0, some 1, some 3⟩, ⟨4, "d", 0, 0, some 1, some 4⟩,
       ⟨5, "e", 0, 0, some 1, some 5⟩] }

/-- C8 counterexample: with `class_name` provided as the empty string the
filter is dropped (truthiness guard), so rows whose class differs from the
provided value come back — refuting "when className is provided every
returned row has exactly that class_name"; and with `limit = -1` the call
returns 3 rows, more than the claimed "at most limit" bound allows. -/
theorem recent_objects_empty_class_and_negative_limit :
    (RobotDatabase.get_recent_objects okEngine cupStore 10 (some "") none
      = .ok [⟨3, "ball", 0, 0, some 1, some 30⟩, ⟨2, "cup", 0, 0, some 2, some 20⟩,
             ⟨1, "cup", 0, 0, some 1, some 10⟩] ∧
      (⟨3, "ball", 0, 0, some 1, some 30⟩ : ObjectRow).class_name ≠ "") ∧
    (RobotDatabase.get_recent_objects okEngine cupStore (-1) none none
      = .ok [⟨3, "ball", 0, 0, some 1, some 30⟩, ⟨2, "cup", 0, 0, some 2, some 20⟩,
             ⟨1, "cup", 0, 0, some 1, some 10⟩] ∧
      ¬ ((3 : Int) ≤ -1)) :=
  ⟨⟨rfl, by decide⟩, ⟨rfl, by decide⟩⟩

/-- C8 (amended): every successful `get_recent_objects` call with a
nonnegative limit returns at most `limit` rows, newest-first; a provided
**non-empty** `class_name` and a provided `robot_id` each filter by exact
match, conjunctively when both are given (an empty-string class and a
negative limit are the exceptions established by the counterexample).
Concretely: the robot-1 "cup" query returns only robot 1's cup row, and
limit 3 over five objects returns exactly the 3 most recent. -/
theorem recent_objects_filters_order_limit :
    (∀ (e : Engine) (s : Store) (lim : Int) (cn : Option String) (rid : Option Rat),
      0 ≤ lim → ∀ os, RobotDatabase.get_recent_objects e s lim cn rid = .ok os →
        (os.length : Int) ≤ lim ∧ os.Pairwise objAfter ∧
          (∀ c, cn = some c → c ≠ "" → ∀ o ∈ os, o.class_name = c) ∧
          (∀ r, rid = some r → ∀ o ∈ os, o.robot_id = some r)) ∧
    (RobotDatabase.get_recent_objects okEngine cupStore 10 (some "cup") (some 1)
      = .ok [⟨1, "cup", 0, 0, some 1, some 10⟩]) ∧
    (RobotDatabase.get_recent_objects okEngine fiveStore 3 none none
      = .ok [⟨5, "e", 0, 0, some 1, some 5⟩, ⟨4, "d", 0, 0, some 1, some 4⟩,
             ⟨3, "c", 0, 0, some 1, some 3⟩]) := by
  refine ⟨?_, rfl, rfl⟩
  intro e s lim cn rid hlim os h
  obtain ⟨hc, hr, hp, hl⟩ := get_recent_objects_ok_props h
  exact ⟨hl hlim, hp, hc, hr⟩

/-- C8 witness: the general part applied to the concrete conjunctive-filter
query on `cupStore`. -/
theorem recent_objects_filters_order_limit_witness :
    (([⟨1, "cup", 0, 0, some 1, some 10⟩] : List ObjectRow).length : Int) ≤ 10 ∧
    ([⟨1, "cup", 0, 0, some 1, some 10⟩] : List ObjectRow).Pairwise objAfter ∧
    (∀ c, (some "cup" : Option String) = some c → c ≠ "" →
      ∀ o ∈ ([⟨1, "cup", 0, 0, some 1, some 10⟩] : List ObjectRow), o.class_name = c) ∧
    (∀ r, (some 1 : Option Rat) = some r →
      ∀ o ∈ ([⟨1, "cup", 0, 0, some 1, some 10⟩] : List ObjectRow), o.robot_id = some r) :=
  recent_objects_filters_order_limit.1 okEngine cupStore 10 (some "cup") (some 1)
    (by decide) [⟨1, "cup", 0, 0, some 1, some 10⟩] rfl

/-- N-fold sequential invocation of `create_goals_table` on the same store,
collecting each call's returned boolean; a raised exception aborts. -/
def ensure_goals_n (e : Engine) : Nat → Store → Except PyExc (List Bool × Store)
  | 0, s => .ok ([], s)
  | n + 1, s =>
    match RobotDatabase.create_goals_table e s with
    | .error ex => .error ex
    | .ok (b, s1) =>
      match ensure_goals_n e n s1 with
      | .error ex => .error ex
      | .ok (bs, s2) => .ok (b :: bs, s2)

/-- N-fold sequential invocation of `create_objects_table`. -/
def ensure_objects_n (e : Engine) : Nat → Store → Except PyExc (List Bool × Store)
  | 0, s => .ok ([], s)
  | n + 1, s =>
    match RobotDatabase.create_objects_table e s with
    | .error ex => .error ex
    | .ok (b, s1) =>
      match ensure_objects_n e n s1 with
      | .error ex => .error ex
      | .ok (bs, s2) => .ok (b :: bs, s2)

theorem create_goals_table_ok {e : Engine} (s : Store)
    (hopen : e.openFails = false) (hexec : e.execFails = false) :
    RobotDatabase.create_goals_table e s = .ok (true, { s with goalsTable := true }) := by
  unfold RobotDatabase.create_goals_table
  rw [hopen, hexec]
  rfl

theorem create_objects_table_ok {e : Engine} (s : Store)
    (hopen : e.openFails = false) (hexec : e.execFails = false) :
    RobotDatabase.create_objects_table e s = .ok (true, { s with objectsTable := true }) := by
  unfold RobotDatabase.create_objects_table
  rw [hopen, hexec]
  rfl

theorem store_goalsTable_set_self {s : Store} (h : s.goalsTable = true) :
    { s with goalsTable := true } = s := by
  cases s
  simp_all

theorem store_objectsTable_set_self {s : Store} (h : s.objectsTable = true) :
    { s with objectsTable := true } = s := by
  cases s
  simp_all

theorem ensure_goals_n_fixed {e : Engine} (hopen : e.openFails = false)
    (hexec : e.execFails = false) (n : Nat) :
    ∀ (s : Store), s.goalsTable = true →
      ensure_goals_n e n s = .ok (List.replicate n true, s) := by
  induction n with
  | zero => intro s _; rfl
  | succ n ih =>
    intro s h
    simp only [ensure_goals_n, create_goals_table_ok s hopen hexec,
      store_goalsTable_set_self h, ih s h, List.replicate_succ]

theorem ensure_objects_n_fixed {e : Engine} (hopen : e.openFails = false)
    (hexec : e.execFails = false) (n : Nat) :
    ∀ (s : Store), s.objectsTable = true →
      ensure_objects_n e n s = .ok (List.replicate n true, s) := by
  induction n with
  | zero => intro s _; rfl
  | succ n ih =>
    intro s h
    simp only [ensure_objects_n, create_objects_table_ok s hopen hexec,
      store_objectsTable_set_self h, ih s h, List.replicate_succ]

theorem ensure_goals_n_ok {e : Engine} (hopen : e.openFails = false)
    (hexec : e.execFails = false) (n : Nat) (s : Store) :
    ensure_goals_n e (n + 1) s
      = .ok (List.replicate (n + 1) true, { s with goalsTable := true }) := by
  simp only [ensure_goals_n, create_goals_table_ok s hopen hexec,
    ensure_goals_n_fixed hopen hexec n { s with goalsTable := true } rfl,
    List.replicate_succ]

theorem ensure_objects_n_ok {e : Engine} (hopen : e.openFails = false)
    (hexec : e.execFails = false) (n : Nat) (s : Store) :
    ensure_objects_n e (n + 1) s
      = .ok (List.replicate (n + 1) true, { s with objectsTable := true }) := by
  simp only [ensure_objects_n, create_objects_table_ok s hopen hexec,
    ensure_objects_n_fixed hopen hexec n { s with objectsTable := true } rfl,
    List.replicate_succ]

/-- C9 counterexample: when the store file cannot be opened, both table
creators raise the `sqlite3` error to the caller (the `connect()` call sits
before the `try` block), refuting "no call errors ... returning failure
rather than raising on engine error". -/
theorem create_tables_raise_when_open_fails :
    RobotDatabase.create_goals_table ⟨true, false⟩ initStore = .error .sqliteError ∧
    RobotDatabase.create_objects_table ⟨true, false⟩ initStore = .error .sqliteError :=
  ⟨rfl, rfl⟩

/-- C9 (amended): provided the store opens, calling either schema-ensure
operation any number N ≥ 1 of times never errors: every call returns `True`,
the final store only has the table flag set (all N-fold runs agree with a
single run), existing rows of both tables are untouched, and a statement
error inside the `try` yields `(False, unchanged store)` rather than an
exception; an unopenable store instead raises out of `connect()`. -/
theorem ensure_tables_idempotent (e : Engine) (s : Store) (n : Nat)
    (hopen : e.openFails = false) (hexec : e.execFails = false) (hn : 1 ≤ n) :
    (ensure_goals_n e n s = .ok (List.replicate n true, { s with goalsTable := true })) ∧
    (ensure_objects_n e n s = .ok (List.replicate n true, { s with objectsTable := true })) ∧
    ({ s with goalsTable := true }).goals = s.goals ∧
    ({ s with goalsTable := true }).objects = s.objects ∧
    ({ s with objectsTable := true }).goals = s.goals ∧
    ({ s with objectsTable := true }).objects = s.objects ∧
    (∀ (e2 : Engine) (s2 : Store), e2.openFails = false → e2.execFails = true →
      RobotDatabase.create_goals_table e2 s2 = .ok (false, s2) ∧
      RobotDatabase.create_objects_table e2 s2 = .ok (false, s2)) := by
  obtain ⟨m, rfl⟩ : ∃ m, n = m + 1 := ⟨n - 1, (Nat.succ_pred_eq_of_pos hn).symm⟩
  refine ⟨ensure_goals_n_ok hopen hexec m s, ensure_objects_n_ok hopen hexec m s,
    rfl, rfl, rfl, rfl, ?_⟩
  intro e2 s2 h2o h2x
  constructor
  · unfold RobotDatabase.create_goals_table
    rw [h2o, h2x]
    rfl
  · unfold RobotDatabase.create_objects_table
    rw [h2o, h2x]
    rfl

/-- C9 witness: two consecutive runs of each creator on the populated
robot-7 store. -/
theorem ensure_tables_idempotent_witness :
    (ensure_goals_n okEngine 2 hist7Store
      = .ok (List.replicate 2 true, { hist7Store with goalsTable := true })) ∧
    (ensure_objects_n okEngine 2 hist7Store
      = .ok (List.replicate 2 true, { hist7Store with objectsTable := true })) ∧
    ({ hist7Store with goalsTable := true }).goals = hist7Store.goals ∧
    ({ hist7Store with goalsTable := true }).objects = hist7Store.objects ∧
    ({ hist7Store with objectsTable := true }).goals = hist7Store.goals ∧
    ({ hist7Store with objectsTable := true }).objects = hist7Store.objects ∧
    (∀ (e2 : Engine) (s2 : Store), e2.openFails = false → e2.execFails = true →
      RobotDatabase.create_goals_table e2 s2 = .ok (false, s2) ∧
      RobotDatabase.create_objects_table e2 s2 = .ok (false, s2)) :=
  ensure_tables_idempotent okEngine hist7Store 2 rfl rfl (by decide)

/-- A "cup" from robot 1 and a "ball" from robot 0. -/
def mixStore : Store :=
  { initStore with objects :=
      [⟨1, "cup", 0, 0, some 1, some 10⟩, ⟨2, "ball", 0, 0, some 0, some 20⟩] }

/-- C10: the two optional filters are tested asymmetrically: an
empty-string `class_name` behaves exactly like an absent one (the
truthiness guard drops the filter, so rows of every class can come back),
while `robot_id = 0` passes the `is not None` guard and filters by exact
match. -/
theorem recent_objects_truthiness_asymmetry :
    (∀ (e : Engine) (s : Store) (lim : Int) (rid : Option Rat),
      RobotDatabase.get_recent_objects e s lim (some "") rid
        = RobotDatabase.get_recent_objects e s lim none rid) ∧
    (∀ (e : Engine) (s : Store) (lim : Int) (cn : Option String)
        (os : List ObjectRow),
      RobotDatabase.get_recent_objects e s lim cn (some 0) = .ok os →
      ∀ o ∈ os, o.robot_id = some 0) ∧
    (RobotDatabase.get_recent_objects okEngine mixStore 10 (some "") none
      = .ok [⟨2, "ball", 0, 0, some 0, some 20⟩, ⟨1, "cup", 0, 0, some 1, some 10⟩]) ∧
    (RobotDatabase.get_recent_objects okEngine mixStore 10 none (some 0)
      = .ok [⟨2, "ball", 0, 0, some 0, some 20⟩]) := by
  refine ⟨?_, ?_, rfl, rfl⟩
  · intro e s lim rid
    rfl
  · intro e s lim cn os h o ho
    exact (get_recent_objects_ok_props h).2.1 0 rfl o ho

/-- C10 witness: the robot-0 filter applied to the concrete mixed store. -/
theorem recent_objects_truthiness_asymmetry_witness :
    ∀ o ∈ ([⟨2, "ball", 0, 0, some 0, some 20⟩] : List ObjectRow), o.robot_id = some 0 :=
  recent_objects_truthiness_asymmetry.2.1 okEngine mixStore 10 none
    [⟨2, "ball", 0, 0, some 0, some 20⟩] rfl
